import Mathlib

/-!
Shallow embedding of the scope repository frontend code:
the API client module (relay indirection, Livepeer stream start,
relay forwarding) and the WebRTC session hook (start, stop,
connection-state handling, parameter updates, video track swap).

JavaScript host primitives are modelled explicitly: the fetch
environment is a function from requests to responses, JSON.parse is an
abstract parser, possibly failing, carried by the environment, and JS truthiness
of strings and JSON values is modelled by dedicated functions.
-/

set_option maxHeartbeats 1000000

/-- JSON values as consumed and produced by the client code. Numbers are
modelled as integers because no claim depends on fractional values. -/
inductive Json where
  | null
  | bool (b : Bool)
  | num (n : Int)
  | str (s : String)
  | arr (xs : List Json)
  | obj (fields : List (String × Json))

/-- JS truthiness of a JSON value: null, false, 0 and the empty string
are falsy, everything else is truthy. -/
def Json.truthy : Json → Bool
  | .null => false
  | .bool b => b
  | .num n => n != 0
  | .str s => !s.isEmpty
  | .arr _ => true
  | .obj _ => true

/-- Field lookup on a JSON value, as in the JS expression j?.k : none when
the value is not an object or lacks the field. -/
def Json.getField : Json → String → Option Json
  | .obj fields, k => fields.lookup k
  | _, _ => none

/-- Truthiness of the field access j?.k (undefined is falsy). -/
def truthyField (j : Json) (k : String) : Bool :=
  match j.getField k with
  | some v => v.truthy
  | none => false

/-- An HTTP request as issued through fetch: URL, method, the
Content-Type header, and a structured body (none for body-less GETs). -/
structure Request where
  url : String
  method : String
  contentType : String
  body : Option Json

/-- An HTTP response as observed by the client: status code, status text
and the raw body text. -/
structure Response where
  status : Nat
  statusText : String
  bodyText : String

/-- The response.ok accessor of fetch: status in the range 200 to 299. -/
def Response.ok (r : Response) : Bool :=
  200 ≤ r.status && r.status ≤ 299

/-- The host environment of the client code: the network (one response
per request) and the JSON.parse primitive (none models a parse throw). -/
structure Http where
  send : Request → Response
  parse : String → Option Json

/-- Errors thrown by the API client: HTTP failures carry the numeric
status, the status text and the body text verbatim, together with the
fixed context label of the throwing function; jsonParse models a
response.json() rejection; missing models the explicit throws on absent
fields of the Livepeer start response. -/
inductive ApiError where
  | http (context : String) (status : Nat) (statusText : String) (bodyText : String)
  | jsonParse (context : String)
  | missing (message : String)

/-- Outcome of one API client call: the returned value or thrown error,
the list of HTTP requests issued (in order), and the value of the shared
livepeerStreamId module variable after the call. -/
structure ApiOutcome where
  result : Except ApiError Json
  requests : List Request
  streamIdAfter : Option String

/-- JS truthiness of a string-or-null variable: null and the empty
string are falsy. -/
def jsTruthyId : Option String → Bool
  | some s => !s.isEmpty
  | none => false

/-! ### encodeURIComponent

Model of the JS builtin used by forwardLivepeerRequest: characters
A-Z, a-z, 0-9 and - _ . ! ~ * quote ( ) are kept, every other character
is replaced by the uppercase percent encoding of its UTF-8 bytes. -/

/-- Uppercase hexadecimal digit for a value below 16. -/
def encodeHexDigit (n : Nat) : Char :=
  if n = 0 then '0' else if n = 1 then '1' else if n = 2 then '2'
  else if n = 3 then '3' else if n = 4 then '4' else if n = 5 then '5'
  else if n = 6 then '6' else if n = 7 then '7' else if n = 8 then '8'
  else if n = 9 then '9' else if n = 10 then 'A' else if n = 11 then 'B'
  else if n = 12 then 'C' else if n = 13 then 'D' else if n = 14 then 'E'
  else 'F'

/-- Percent escape of one byte. -/
def percentEncodeByte (b : Nat) : List Char :=
  ['%', encodeHexDigit (b / 16 % 16), encodeHexDigit (b % 16)]

/-- UTF-8 bytes of one code point. -/
def utf8Bytes (c : Char) : List Nat :=
  let n := c.toNat
  if n < 128 then [n]
  else if n < 2048 then [192 + n / 64, 128 + n % 64]
  else if n < 65536 then [224 + n / 4096, 128 + n / 64 % 64, 128 + n % 64]
  else [240 + n / 262144, 128 + n / 4096 % 64, 128 + n / 64 % 64, 128 + n % 64]

/-- Characters that encodeURIComponent leaves unescaped. -/
def isUnreservedChar (c : Char) : Bool :=
  c.isAlphanum || c = '-' || c = '_' || c = '.' || c = '!' || c = '~' ||
    c = '*' || c = '\'' || c = '(' || c = ')'

/-- Encoding of a single character. -/
def encodeChar (c : Char) : List Char :=
  if isUnreservedChar c then [c] else (utf8Bytes c).flatMap percentEncodeByte

/-- The encodeURIComponent builtin. -/
def encodeURIComponent (s : String) : String :=
  ⟨s.data.flatMap encodeChar⟩

/-! ### API client (src/unnamed/part_000, the api module) -/

/-- Path of the relay per-stream update endpoint for a stream id. -/
def relayUpdatePath (streamId : String) : String :=
  "/ai/stream/" ++ encodeURIComponent streamId ++ "/update"

/-- forwardLivepeerRequest: POST the envelope with fields route and
request to the relay update path; on a non-ok response throw an HTTP
error; on success return null for an empty body, the parsed JSON when
the body parses, and the raw body text otherwise. The shared stream id
is not written. -/
def forwardLivepeerRequest (H : Http) (livepeerStreamId : Option String)
    (streamId : String) (route : String) (payload : Json) : ApiOutcome :=
  let req : Request :=
    ⟨relayUpdatePath streamId, "POST", "application/json",
      some (.obj [("route", .str route), ("request", payload)])⟩
  let r := H.send req
  if r.ok then
    if r.bodyText.isEmpty then ⟨.ok .null, [req], livepeerStreamId⟩
    else
      match H.parse r.bodyText with
      | some j => ⟨.ok j, [req], livepeerStreamId⟩
      | none => ⟨.ok (.str r.bodyText), [req], livepeerStreamId⟩
  else
    ⟨.error (.http "Livepeer update failed" r.status r.statusText r.bodyText),
      [req], livepeerStreamId⟩

/-- withLivepeerRoute: when the shared stream id is truthy (non-null and
non-empty), forward the call through the relay; otherwise run the direct
fetcher. -/
def withLivepeerRoute (H : Http) (livepeerStreamId : Option String)
    (route : String) (requestBody : Json) (fetcher : ApiOutcome) : ApiOutcome :=
  match livepeerStreamId with
  | some id =>
      if id.isEmpty then fetcher
      else forwardLivepeerRequest H (some id) id route requestBody
  | none => fetcher

/-- Common body of the direct backend fetchers: one request; on a non-ok
response throw an HTTP error built from the fixed context label, the
status, the status text and the body text; on success return the parsed
JSON body (response.json(), rejecting when the body does not parse). -/
def directJsonFetch (H : Http) (livepeerStreamId : Option String)
    (context : String) (req : Request) : ApiOutcome :=
  let r := H.send req
  if r.ok then
    match H.parse r.bodyText with
    | some j => ⟨.ok j, [req], livepeerStreamId⟩
    | none => ⟨.error (.jsonParse context), [req], livepeerStreamId⟩
  else
    ⟨.error (.http context r.status r.statusText r.bodyText), [req], livepeerStreamId⟩

/-- sendWebRTCOffer. -/
def sendWebRTCOffer (H : Http) (livepeerStreamId : Option String)
    (data : Json) : ApiOutcome :=
  withLivepeerRoute H livepeerStreamId "/api/v1/webrtc/offer" data
    (directJsonFetch H livepeerStreamId "WebRTC offer failed"
      ⟨"/api/v1/webrtc/offer", "POST", "application/json", some data⟩)

/-- loadPipeline. -/
def loadPipeline (H : Http) (livepeerStreamId : Option String)
    (data : Json) : ApiOutcome :=
  withLivepeerRoute H livepeerStreamId "/api/v1/pipeline/load" data
    (directJsonFetch H livepeerStreamId "Pipeline load failed"
      ⟨"/api/v1/pipeline/load", "POST", "application/json", some data⟩)

/-- getPipelineStatus. -/
def getPipelineStatus (H : Http) (livepeerStreamId : Option String) : ApiOutcome :=
  withLivepeerRoute H livepeerStreamId "/api/v1/pipeline/status" .null
    (directJsonFetch H livepeerStreamId "Pipeline status failed"
      ⟨"/api/v1/pipeline/status", "GET", "application/json", none⟩)

/-- checkModelStatus: the pipeline id is spliced into the query string
by plain template interpolation, with no encoding. -/
def checkModelStatus (H : Http) (livepeerStreamId : Option String)
    (pipelineId : String) : ApiOutcome :=
  withLivepeerRoute H livepeerStreamId
    ("/api/v1/models/status?pipeline_id=" ++ pipelineId) .null
    (directJsonFetch H livepeerStreamId "Model status check failed"
      ⟨"/api/v1/models/status?pipeline_id=" ++ pipelineId, "GET",
        "application/json", none⟩)

/-- downloadPipelineModels. -/
def downloadPipelineModels (H : Http) (livepeerStreamId : Option String)
    (pipelineId : String) : ApiOutcome :=
  withLivepeerRoute H livepeerStreamId "/api/v1/models/download"
    (.obj [("pipeline_id", .str pipelineId)])
    (directJsonFetch H livepeerStreamId "Model download failed"
      ⟨"/api/v1/models/download", "POST", "application/json",
        some (.obj [("pipeline_id", .str pipelineId)])⟩)

/-- updatePipelineParameters. -/
def updatePipelineParameters (H : Http) (livepeerStreamId : Option String)
    (data : Json) : ApiOutcome :=
  withLivepeerRoute H livepeerStreamId "/api/v1/pipeline/update" data
    (directJsonFetch H livepeerStreamId "Pipeline update failed"
      ⟨"/api/v1/pipeline/update", "POST", "application/json", some data⟩)

/-- getHardwareInfo. -/
def getHardwareInfo (H : Http) (livepeerStreamId : Option String) : ApiOutcome :=
  withLivepeerRoute H livepeerStreamId "/api/v1/hardware/info" .null
    (directJsonFetch H livepeerStreamId "Hardware info failed"
      ⟨"/api/v1/hardware/info", "GET", "application/json", none⟩)

/-- startLivepeerStream: POST to the stream-start endpoint, throw on a
non-ok response, parse the body, then throw unless both whep_url and
stream_id are truthy. The source contains no write to the shared
livepeerStreamId variable, so the state passes through unchanged. -/
def startLivepeerStream (H : Http) (livepeerStreamId : Option String)
    (data : Json) : ApiOutcome :=
  let req : Request := ⟨"/ai/stream/start", "POST", "application/json", some data⟩
  let r := H.send req
  if r.ok then
    match H.parse r.bodyText with
    | some result =>
        if !truthyField result "whep_url" then
          ⟨.error (.missing "Livepeer stream start response missing whep_url"),
            [req], livepeerStreamId⟩
        else if !truthyField result "stream_id" then
          ⟨.error (.missing "Livepeer stream start response missing stream_id"),
            [req], livepeerStreamId⟩
        else ⟨.ok result, [req], livepeerStreamId⟩
    | none => ⟨.error (.jsonParse "Livepeer stream start failed"), [req], livepeerStreamId⟩
  else
    ⟨.error (.http "Livepeer stream start failed" r.status r.statusText r.bodyText),
      [req], livepeerStreamId⟩

/-! ### WebRTC session hook (src/frontend/src/hooks/useWebRTC.ts,
Livepeer-aware version) -/

/-- The RTCPeerConnectionState enumeration. -/
inductive ConnState where
  | new
  | connecting
  | connected
  | disconnected
  | failed
  | closed
deriving DecidableEq

/-- A media track; only its kind is inspected by the hook. The id field
keeps distinct tracks distinguishable. -/
structure MediaStreamTrack where
  kind : String
  id : Nat

/-- A media stream is its list of tracks. -/
structure MediaStream where
  tracks : List MediaStreamTrack

/-- getVideoTracks(): the tracks whose kind is video. -/
def MediaStream.getVideoTracks (s : MediaStream) : List MediaStreamTrack :=
  s.tracks.filter (fun t => t.kind == "video")

/-- An RTP sender: it may currently carry a track. -/
structure RTCRtpSender where
  track : Option MediaStreamTrack

/-- The visible part of a peer connection: its senders. -/
structure PeerConnection where
  senders : List RTCRtpSender

/-- A data channel, observed through its readyState string. -/
structure DataChannel where
  readyState : String

/-- The transport option of the hook. -/
inductive ParameterTransport where
  | webrtc
  | livepeer
deriving DecidableEq

/-- State owned by one hook instance: the React state values, the refs,
and the shared livepeerStreamId variable of the api module (written via
setLivepeerStreamId). -/
structure HookState where
  remoteStream : Option MediaStream
  connectionState : ConnState
  isConnecting : Bool
  isStreaming : Bool
  peerConnection : Option PeerConnection
  dataChannel : Option DataChannel
  currentStream : Option MediaStream
  livepeerStreamIdRef : Option String
  livepeerStreamId : Option String

/-- The onConnectionStateChange handler: mirror the connection state
into hook state; on connected set streaming; on disconnected, failed or
closed clear the connecting and streaming flags and, for Livepeer
transport, clear the relay identifier locally and in the shared
indirection layer. -/
def onConnectionStateChange (isLivepeerTransport : Bool) (pcState : ConnState)
    (st : HookState) : HookState :=
  let st1 := { st with connectionState := pcState }
  if pcState = .connected then
    { st1 with isConnecting := false, isStreaming := true }
  else if pcState = .disconnected ∨ pcState = .failed ∨ pcState = .closed then
    let st2 := { st1 with isConnecting := false, isStreaming := false }
    if isLivepeerTransport then
      { st2 with livepeerStreamIdRef := none, livepeerStreamId := none }
    else st2
  else st1

/-- Host environment for one startStream invocation: the network, and
whether the createOffer / setLocalDescription tail succeeds. -/
structure StartEnv where
  http : Http
  offerOk : Bool

/-- Result of one startStream invocation: the final hook state, the
HTTP requests issued, whether a fresh peer connection was constructed,
and whether that connection was closed again by the catch handler. -/
structure StartResult where
  state : HookState
  requests : List Request
  pcCreated : Bool
  pcClosed : Bool

/-- Senders resulting from media setup: addTrack for each video track of
the supplied stream, or a single trackless sender from the receive-only
addTransceiver("video") call when no stream is supplied. -/
def sendersFor : Option MediaStream → List RTCRtpSender
  | some s => (s.tracks.filter (fun t => t.kind == "video")).map (fun t => ⟨some t⟩)
  | none => [⟨none⟩]

/-- A freshly created data channel (readyState starts at connecting). -/
def newDataChannel : DataChannel := ⟨"connecting"⟩

/-- Body of the startLivepeerStream call made by the hook: the object
literal with the shorthand initialParameters field; JSON.stringify drops
the key when the value is undefined. -/
def liveStartBody : Option Json → Json
  | some p => .obj [("initialParameters", p)]
  | none => .obj []

/-- The string stored into livepeerStreamIdRef from the validated start
response (the stream_id field, a string in every validated response). -/
def jsonStringField (j : Json) (k : String) : Option String :=
  match j.getField k with
  | some (.str s) => some s
  | _ => none

/-- The catch handler of startStream: close and null the peer connection
when present, clear the relay identifier locally and in the shared
layer, and reset the connecting and streaming flags. -/
def startCatch (st : HookState) (reqs : List Request) : StartResult :=
  ⟨{ st with
      peerConnection := none
      livepeerStreamIdRef := none
      livepeerStreamId := none
      isConnecting := false
      isStreaming := false },
    reqs, true, st.peerConnection.isSome⟩

/-- Tail of startStream after the transport branch: media setup
populates the senders of the new connection, then createOffer and
setLocalDescription run; a failure there lands in the catch handler. -/
def startStreamTail (env : StartEnv) (st : HookState) (stream : Option MediaStream)
    (reqs : List Request) : StartResult :=
  let st := { st with peerConnection := some ⟨sendersFor stream⟩ }
  if env.offerOk then ⟨st, reqs, true, false⟩
  else startCatch st reqs

/-- startStream: guarded no-op while connecting or holding a connection;
otherwise set connecting, clear any stale relay identifier unless
Livepeer transport is selected, record the local stream, create the peer
connection, then either create the data channel (direct transport) or
start the relay session (Livepeer transport, publishing the returned
stream id, or clearing it and rethrowing on failure), and finish with
media setup and offer creation under the catch handler. -/
def startStream (parameterTransport : ParameterTransport) (env : StartEnv)
    (st : HookState) (initialParameters : Option Json)
    (stream : Option MediaStream) : StartResult :=
  if st.isConnecting || st.peerConnection.isSome then ⟨st, [], false, false⟩
  else
    let st := { st with isConnecting := true }
    let st :=
      if parameterTransport ≠ .livepeer then
        { st with livepeerStreamIdRef := none, livepeerStreamId := none }
      else st
    let st := { st with currentStream := stream }
    let st := { st with peerConnection := some ⟨[]⟩ }
    if parameterTransport ≠ .livepeer then
      let st := { st with dataChannel := some newDataChannel }
      startStreamTail env st stream []
    else
      let st := { st with dataChannel := none }
      let out := startLivepeerStream env.http st.livepeerStreamId
        (liveStartBody initialParameters)
      match out.result with
      | .ok response =>
          let sid := jsonStringField response "stream_id"
          let st := { st with livepeerStreamIdRef := sid, livepeerStreamId := sid }
          startStreamTail env st stream out.requests
      | .error _ =>
          let st := { st with livepeerStreamIdRef := none, livepeerStreamId := none }
          startCatch st out.requests

/-- Whether a sender currently carries a video track, as tested by the
find callback s.track?.kind === "video". -/
def isVideoSender (s : RTCRtpSender) : Bool :=
  match s.track with
  | some t => t.kind == "video"
  | none => false

/-- replaceTrack on the first video sender of the list. -/
def replaceFirstVideo : List RTCRtpSender → MediaStreamTrack → List RTCRtpSender
  | [], _ => []
  | s :: rest, t =>
      if isVideoSender s then ⟨some t⟩ :: rest
      else s :: replaceFirstVideo rest t

/-- updateVideoTrack: false without change unless streaming with a live
connection, a video track in the new stream, and a video sender on the
connection; otherwise replace the track on that sender, record the new
stream, and return true. -/
def updateVideoTrack (st : HookState) (newStream : MediaStream) :
    Bool × HookState :=
  match st.peerConnection with
  | some pc =>
      if st.isStreaming then
        match newStream.getVideoTracks.head? with
        | none => (false, st)
        | some videoTrack =>
            match pc.senders.find? isVideoSender with
            | some _ =>
                (true,
                  { st with
                      peerConnection := some ⟨replaceFirstVideo pc.senders videoTrack⟩,
                      currentStream := some newStream })
            | none => (false, st)
      else (false, st)
  | none => (false, st)

/-- A JS value as seen by Object.entries over the parameter record:
either undefined or a JSON value (possibly null). -/
inductive JsVal where
  | undef
  | val (j : Json)

/-- The filtering loop of sendParameterUpdate: keep exactly the entries
whose value is neither undefined nor null, in order. -/
def filterParams (params : List (String × JsVal)) : List (String × Json) :=
  params.filterMap (fun kv =>
    match kv.2 with
    | .undef => none
    | .val .null => none
    | .val j => some (kv.1, j))

/-- Observable effects of one sendParameterUpdate call: HTTP requests
issued and messages sent on the data channel. -/
structure SendEffects where
  requests : List Request
  channelMessages : List Json

/-- sendParameterUpdate: filter out undefined and null fields; stop when
nothing remains; in Livepeer mode require a truthy local stream id ref
and send through updatePipelineParameters (errors swallowed); in direct
mode require an open data channel and send the JSON message there. -/
def sendParameterUpdate (parameterTransport : ParameterTransport) (H : Http)
    (st : HookState) (params : List (String × JsVal)) : SendEffects :=
  let filteredParams := filterParams params
  if filteredParams.isEmpty then ⟨[], []⟩
  else if parameterTransport = .livepeer then
    if !jsTruthyId st.livepeerStreamIdRef then ⟨[], []⟩
    else
      ⟨(updatePipelineParameters H st.livepeerStreamId (.obj filteredParams)).requests, []⟩
  else
    match st.dataChannel with
    | some dc =>
        if dc.readyState == "open" then ⟨[], [.obj filteredParams]⟩
        else ⟨[], []⟩
    | none => ⟨[], []⟩

/-- stopStream: close the peer connection when present, null the
connection, data channel, current stream and relay identifier refs,
clear the shared relay flag and the remote stream, reset the connection
state to new and the streaming flag to false. The connecting flag is not
written. The boolean reports whether a connection was closed. -/
def stopStream (st : HookState) : HookState × Bool :=
  ({ st with
      peerConnection := none,
      dataChannel := none,
      currentStream := none,
      livepeerStreamIdRef := none,
      livepeerStreamId := none,
      remoteStream := none,
      connectionState := .new,
      isStreaming := false },
    st.peerConnection.isSome)

/-! ### Specification-side vocabulary and concrete fixtures -/

/-- The terminal connection states named by the specification. -/
def ConnState.isTerminal : ConnState → Bool
  | .disconnected => true
  | .failed => true
  | .closed => true
  | _ => false

/-- Number of steps of a run of connection-state events at which the
shared relay identifier passes from set to cleared. -/
def clearCount (isLivepeerTransport : Bool) : List ConnState → HookState → Nat
  | [], _ => 0
  | c :: cs, st =>
      let st2 := onConnectionStateChange isLivepeerTransport c st
      (if st.livepeerStreamId.isSome && st2.livepeerStreamId.isNone then 1 else 0) +
        clearCount isLivepeerTransport cs st2

/-- Whether the current peer connection has a sender carrying a video
track (false when no connection is held). -/
def hasVideoSender (st : HookState) : Bool :=
  match st.peerConnection with
  | some pc => pc.senders.any isVideoSender
  | none => false

/-- Values dropped by the sendParameterUpdate filter. -/
def isDroppedVal : JsVal → Bool
  | .undef => true
  | .val .null => true
  | .val _ => false

/-- The JSON value under a kept entry (arbitrary on dropped entries). -/
def stripVal : JsVal → Json
  | .undef => .null
  | .val j => j

/-- Fixture network: every request succeeds with an empty-object body. -/
def exHttp : Http :=
  ⟨fun _ => ⟨200, "OK", "ob"⟩, fun s => if s = "ob" then some (.obj []) else none⟩

/-- Fixture network: every request fails with status 500. -/
def exHttp500 : Http :=
  ⟨fun _ => ⟨500, "Internal Server Error", "boom"⟩, fun _ => none⟩

/-- Fixture network: stream start answers with a body whose JSON lacks
the stream_id field. -/
def exHttpNoSid : Http :=
  ⟨fun _ => ⟨200, "OK", "w"⟩,
    fun s => if s = "w" then some (.obj [("whep_url", .str "u")]) else none⟩

/-- Fixture hook state: the initial state of a fresh hook instance. -/
def st0 : HookState := ⟨none, .new, false, false, none, none, none, none, none⟩

/-- Fixture hook state: a start attempt is in flight. -/
def stBusy : HookState := { st0 with isConnecting := true }

/-- Fixture hook state: streaming over an active relay session. -/
def stSet : HookState :=
  { st0 with
      isStreaming := true
      livepeerStreamIdRef := some "abc"
      livepeerStreamId := some "abc" }

/-- Fixture video tracks and stream. -/
def vTrack : MediaStreamTrack := ⟨"video", 1⟩

/-- Fixture replacement track. -/
def vTrack2 : MediaStreamTrack := ⟨"video", 2⟩

/-- Fixture local stream holding the replacement track. -/
def exStream : MediaStream := ⟨[vTrack2]⟩

/-- Fixture hook state: streaming with a connection whose second sender
carries a video track. -/
def stStreamingPc : HookState :=
  { st0 with
      isStreaming := true
      peerConnection := some ⟨[⟨none⟩, ⟨some vTrack⟩]⟩ }

/-- Fixture start environments. -/
def envOk : StartEnv := ⟨exHttp, true⟩

/-- Fixture start environment whose relay start fails. -/
def env500 : StartEnv := ⟨exHttp500, true⟩

/-- Fixture parameter record whose entries are all undefined or null. -/
def params0 : List (String × JsVal) :=
  [("noise_scale", JsVal.undef), ("paused", JsVal.val Json.null)]

/-- Contract of one client call against the network: exactly the given
request is issued; a non-2xx response yields the HTTP error carrying the
status, status text and body text verbatim under the fixed context; a
2xx response whose body parses yields the parsed JSON. -/
def httpCallContract (H : Http) (ctx : String) (req : Request)
    (out : ApiOutcome) : Prop :=
  out.requests = [req] ∧
  ((H.send req).ok = false →
    out.result =
      .error (.http ctx (H.send req).status (H.send req).statusText
        (H.send req).bodyText)) ∧
  ((H.send req).ok = true → ∀ j, H.parse (H.send req).bodyText = some j →
    out.result = .ok j)

/-! ### Theorems -/

/-- C4: a call to startStream made while the hook is already connecting
or already holds a peer connection returns immediately as a no-op: the
hook state is unchanged, no request is issued, and no new peer
connection is created, so at most one peer connection is live per hook
instance. -/
theorem startStream_busy_noop (parameterTransport : ParameterTransport)
    (env : StartEnv) (st : HookState) (initialParameters : Option Json)
    (stream : Option MediaStream)
    (h : st.isConnecting = true ∨ st.peerConnection.isSome = true) :
    startStream parameterTransport env st initialParameters stream =
      ⟨st, [], false, false⟩ := by
  unfold startStream
  rcases h with h | h <;> simp [h]

/-- Witness for startStream_busy_noop at a concrete busy state. -/
theorem startStream_busy_noop_witness :
    (stBusy.isConnecting = true ∨ stBusy.peerConnection.isSome = true) ∧
    startStream .webrtc envOk stBusy none none = ⟨stBusy, [], false, false⟩ :=
  ⟨Or.inl rfl,
    startStream_busy_noop .webrtc envOk stBusy none none (Or.inl rfl)⟩

/-- The claim that stopStream resets the connecting flag to false fails:
on a state captured mid-connection the flag stays true after stopStream. -/
theorem stopStream_keeps_connecting_flag :
    ¬ ((stopStream stBusy).1.isConnecting = false) := by
  decide

/-- C9 (amended): stopStream closes the peer connection when one is
present, nulls the peer-connection, data-channel, local-stream and relay
identifier references, clears the shared relay flag and the remote
stream, sets the connection state to "new" and streaming to false; the
connecting flag is left unchanged. -/
theorem stopStream_resets (st : HookState) :
    (stopStream st).1.peerConnection = none ∧
    (stopStream st).1.dataChannel = none ∧
    (stopStream st).1.currentStream = none ∧
    (stopStream st).1.livepeerStreamIdRef = none ∧
    (stopStream st).1.livepeerStreamId = none ∧
    (stopStream st).1.remoteStream = none ∧
    (stopStream st).1.connectionState = .new ∧
    (stopStream st).1.isStreaming = false ∧
    (stopStream st).1.isConnecting = st.isConnecting ∧
    (stopStream st).2 = st.peerConnection.isSome :=
  ⟨rfl, rfl, rfl, rfl, rfl, rfl, rfl, rfl, rfl, rfl⟩

/-- The shared relay identifier after one connection-state event: it is
cleared on a terminal state and untouched otherwise (relay transport). -/
theorem livepeerId_after_connState (c : ConnState) (st : HookState) :
    (onConnectionStateChange true c st).livepeerStreamId =
      if c.isTerminal then none else st.livepeerStreamId := by
  cases c <;> simp [onConnectionStateChange, ConnState.isTerminal]

/-- Closed form for the number of clearing steps along a run. -/
theorem clearCount_formula (states : List ConnState) :
    ∀ st : HookState,
      clearCount true states st =
        if st.livepeerStreamId.isSome && states.any ConnState.isTerminal
        then 1 else 0 := by
  induction states with
  | nil => intro st; simp [clearCount]
  | cons c cs ih =>
      intro st
      have hid := livepeerId_after_connState c st
      by_cases hc : c.isTerminal = true
      · have h2 : (onConnectionStateChange true c st).livepeerStreamId = none := by
          rw [hid, if_pos hc]
        rw [clearCount]
        rw [ih, h2]
        cases h : st.livepeerStreamId <;>
          simp [List.any_cons, hc, h, Option.isSome, Option.isNone]
      · have hcf : c.isTerminal = false := by
          cases hcv : c.isTerminal
          · rfl
          · exact absurd hcv hc
        have h2 : (onConnectionStateChange true c st).livepeerStreamId =
            st.livepeerStreamId := by
          rw [hid, if_neg]
          simp [hcf]
        rw [clearCount]
        rw [ih, h2]
        cases h : st.livepeerStreamId <;>
          simp [List.any_cons, hcf, h, Option.isSome, Option.isNone]

/-- C3: while relay transport is active, a connection-state transition
to disconnected, failed or closed sets streaming and connecting to
false, mirrors the state, and clears the relay identifier locally and in
the shared indirection layer; and along any run of connection-state
events the shared relay identifier is cleared exactly once when it was
set and a terminal state occurs, and never more than once. -/
theorem connState_terminal_clears_once (st : HookState) (c : ConnState)
    (states : List ConnState) (hc : c.isTerminal = true) :
    onConnectionStateChange true c st =
      { st with
          connectionState := c
          isConnecting := false
          isStreaming := false
          livepeerStreamIdRef := none
          livepeerStreamId := none } ∧
    clearCount true states st =
      (if st.livepeerStreamId.isSome && states.any ConnState.isTerminal
       then 1 else 0) ∧
    clearCount true states st ≤ 1 := by
  refine ⟨?_, clearCount_formula states st, ?_⟩
  · cases c <;> simp_all [onConnectionStateChange, ConnState.isTerminal]
  · rw [clearCount_formula states st]
    split <;> simp

/-- Witness for connState_terminal_clears_once: a run over a set relay
identifier containing terminal states clears it exactly once. -/
theorem connState_terminal_clears_once_witness :
    ConnState.isTerminal .failed = true ∧
    clearCount true [.disconnected, .connected, .closed] stSet = 1 := by
  refine ⟨rfl, ?_⟩
  have h := connState_terminal_clears_once stSet .failed
    [.disconnected, .connected, .closed] rfl
  have h2 := h.2.1
  simpa using h2

/-- Replacing the first video sender leaves every other sender intact. -/
theorem replaceFirstVideo_append (l₁ : List RTCRtpSender) (s : RTCRtpSender)
    (l₂ : List RTCRtpSender) (t : MediaStreamTrack)
    (h1 : ∀ x ∈ l₁, isVideoSender x = false) (hs : isVideoSender s = true) :
    replaceFirstVideo (l₁ ++ s :: l₂) t = l₁ ++ ⟨some t⟩ :: l₂ := by
  induction l₁ with
  | nil => simp [replaceFirstVideo, hs]
  | cons a l ih =>
      have ha : isVideoSender a = false := h1 a (List.mem_cons_self a l)
      simp [replaceFirstVideo, ha,
        ih (fun x hx => h1 x (List.mem_cons_of_mem a hx))]

/-- C8: updateVideoTrack returns false without any change when the hook
is not streaming, the supplied stream has no video track, or the
connection has no video sender; otherwise it replaces the track of the
first video sender with the first video track of the new stream, records
the new stream, and returns true, changing nothing else; and replacement
touches only the first video sender. -/
theorem updateVideoTrack_contract (st : HookState) (ns : MediaStream) :
    ((st.isStreaming = false ∨ ns.getVideoTracks = [] ∨ hasVideoSender st = false) →
      updateVideoTrack st ns = (false, st)) ∧
    (∀ pc t, st.peerConnection = some pc → st.isStreaming = true →
      ns.getVideoTracks.head? = some t → hasVideoSender st = true →
      updateVideoTrack st ns =
        (true, { st with
            peerConnection := some ⟨replaceFirstVideo pc.senders t⟩
            currentStream := some ns })) ∧
    (∀ (l₁ l₂ : List RTCRtpSender) (s : RTCRtpSender) (t : MediaStreamTrack),
      (∀ x ∈ l₁, isVideoSender x = false) → isVideoSender s = true →
      replaceFirstVideo (l₁ ++ s :: l₂) t = l₁ ++ ⟨some t⟩ :: l₂) := by
  refine ⟨?_, ?_, ?_⟩
  · intro h
    cases hpc : st.peerConnection with
    | none => simp [updateVideoTrack, hpc]
    | some pc =>
        rcases h with h | h | h
        · simp [updateVideoTrack, hpc, h]
        · have hh : ns.getVideoTracks.head? = none := by
            rw [h]; rfl
          cases hstr : st.isStreaming <;> simp [updateVideoTrack, hpc, hh, hstr]
        · have hany : pc.senders.any isVideoSender = false := by
            simpa [hasVideoSender, hpc] using h
          have hfind : pc.senders.find? isVideoSender = none := by
            rw [List.find?_eq_none]
            intro x hx
            simpa using (List.any_eq_false.mp hany) x hx
          cases hstr : st.isStreaming <;>
            cases hh : ns.getVideoTracks.head? <;>
              simp [updateVideoTrack, hpc, hstr, hh, hfind]
  · intro pc t hpc hstr hhead hvid
    have hany : pc.senders.any isVideoSender = true := by
      simpa [hasVideoSender, hpc] using hvid
    have hsome : (pc.senders.find? isVideoSender).isSome = true := by
      rcases List.any_eq_true.mp hany with ⟨x, hx, hpx⟩
      exact List.find?_isSome.mpr ⟨x, hx, hpx⟩
    rcases Option.isSome_iff_exists.mp hsome with ⟨s, hs⟩
    simp [updateVideoTrack, hpc, hstr, hhead, hs]
  · exact fun l₁ l₂ s t h1 hs => replaceFirstVideo_append l₁ s l₂ t h1 hs

/-- Witness for updateVideoTrack_contract: a streaming state with a
video sender and a stream with a video track yield a successful swap. -/
theorem updateVideoTrack_contract_witness :
    stStreamingPc.isStreaming = true ∧
    exStream.getVideoTracks.head? = some vTrack2 ∧
    hasVideoSender stStreamingPc = true ∧
    (updateVideoTrack stStreamingPc exStream).1 = true := by
  refine ⟨rfl, rfl, rfl, ?_⟩
  have h := (updateVideoTrack_contract stStreamingPc exStream).2.1
    ⟨[⟨none⟩, ⟨some vTrack⟩]⟩ vTrack2 rfl rfl rfl rfl
  rw [h]

/-- The sendParameterUpdate filter keeps exactly the entries whose value
is neither undefined nor null, in order and unchanged. -/
theorem filterParams_characterization (params : List (String × JsVal)) :
    filterParams params =
      (params.filter (fun kv => !isDroppedVal kv.2)).map
        (fun kv => (kv.1, stripVal kv.2)) := by
  induction params with
  | nil => rfl
  | cons kv rest ih =>
      rcases kv with ⟨k, v⟩
      cases v with
      | undef =>
          simpa [filterParams, List.filterMap_cons, List.filter_cons,
            isDroppedVal] using ih
      | val j =>
          cases j <;>
            simp [filterParams, List.filterMap_cons, List.filter_cons,
              isDroppedVal, stripVal] <;>
              simpa [filterParams] using ih

/-- An update all of whose fields are undefined or null filters to the
empty record. -/
theorem filterParams_all_dropped (params : List (String × JsVal))
    (h : ∀ kv ∈ params, kv.2 = JsVal.undef ∨ kv.2 = JsVal.val Json.null) :
    filterParams params = [] := by
  induction params with
  | nil => rfl
  | cons kv rest ih =>
      have hkv := h kv (List.mem_cons_self kv rest)
      have hrest := ih (fun x hx => h x (List.mem_cons_of_mem kv hx))
      rcases hkv with hkv | hkv <;>
        · rcases kv with ⟨k, v⟩
          simp only at hkv
          subst hkv
          simpa [filterParams, List.filterMap_cons] using hrest

/-- C5: a parameter update whose fields are all undefined or null causes
no request and no data-channel message in either transport mode; in
general the update is first stripped of exactly its undefined- and
null-valued fields, and the remaining fields are sent unchanged, as a
data-channel message in direct mode (open channel) and through
updatePipelineParameters in Livepeer mode (truthy local stream id). -/
theorem sendParameterUpdate_contract (params : List (String × JsVal)) :
    ((∀ kv ∈ params, kv.2 = JsVal.undef ∨ kv.2 = JsVal.val Json.null) →
      ∀ (parameterTransport : ParameterTransport) (H : Http) (st : HookState),
        sendParameterUpdate parameterTransport H st params = ⟨[], []⟩) ∧
    (filterParams params =
      (params.filter (fun kv => !isDroppedVal kv.2)).map
        (fun kv => (kv.1, stripVal kv.2))) ∧
    (∀ (H : Http) (st : HookState) (dc : DataChannel),
      st.dataChannel = some dc → dc.readyState = "open" →
      filterParams params ≠ [] →
      sendParameterUpdate .webrtc H st params =
        ⟨[], [.obj (filterParams params)]⟩) ∧
    (∀ (H : Http) (st : HookState),
      jsTruthyId st.livepeerStreamIdRef = true →
      filterParams params ≠ [] →
      sendParameterUpdate .livepeer H st params =
        ⟨(updatePipelineParameters H st.livepeerStreamId
            (.obj (filterParams params))).requests, []⟩) := by
  refine ⟨?_, filterParams_characterization params, ?_, ?_⟩
  · intro h parameterTransport H st
    have hnil := filterParams_all_dropped params h
    simp [sendParameterUpdate, hnil]
  · intro H st dc hdc hopen hne
    have hemp : (filterParams params).isEmpty = false := by
      cases hv : filterParams params with
      | nil => exact absurd hv hne
      | cons a l => rfl
    simp [sendParameterUpdate, hemp, hdc, hopen]
  · intro H st htr hne
    have hemp : (filterParams params).isEmpty = false := by
      cases hv : filterParams params with
      | nil => exact absurd hv hne
      | cons a l => rfl
    simp [sendParameterUpdate, hemp, htr]

/-- Witness for sendParameterUpdate_contract: an update with only an
undefined and a null field produces no effect. -/
theorem sendParameterUpdate_contract_witness :
    (∀ kv ∈ params0, kv.2 = JsVal.undef ∨ kv.2 = JsVal.val Json.null) ∧
    sendParameterUpdate .webrtc exHttp stSet params0 = ⟨[], []⟩ := by
  have hall : ∀ kv ∈ params0, kv.2 = JsVal.undef ∨ kv.2 = JsVal.val Json.null := by
    intro kv hkv
    simp only [params0, List.mem_cons, List.mem_singleton] at hkv
    rcases hkv with h | h | h
    · rw [h]; exact Or.inl rfl
    · rw [h]; exact Or.inr rfl
    · exact absurd h (List.not_mem_nil kv)
  exact ⟨hall, (sendParameterUpdate_contract params0).1 hall .webrtc exHttp stSet⟩

/-- C6: when the relay-session start call fails during a Livepeer-mode
startStream, the relay identifier is cleared (locally and in the shared
layer), the rethrown exception reaches the top-level catch handler, and
the final state holds no peer connection (the created one is closed), a
cleared relay identifier, and connecting and streaming both false. -/
theorem startStream_relay_failure (env : StartEnv) (st : HookState)
    (initialParameters : Option Json) (stream : Option MediaStream)
    (hc : st.isConnecting = false) (hpc : st.peerConnection = none)
    (e : ApiError)
    (hfail : (startLivepeerStream env.http st.livepeerStreamId
        (liveStartBody initialParameters)).result = .error e) :
    startStream .livepeer env st initialParameters stream =
      ⟨{ st with
          currentStream := stream
          peerConnection := none
          dataChannel := none
          livepeerStreamIdRef := none
          livepeerStreamId := none
          isConnecting := false
          isStreaming := false },
        (startLivepeerStream env.http st.livepeerStreamId
          (liveStartBody initialParameters)).requests,
        true, true⟩ := by
  unfold startStream
  simp only [hc, hpc, Option.isSome_none, Bool.or_self, Bool.false_eq_true,
    if_false, ne_eq, not_true_eq_false, if_neg]
  simp [startCatch, hfail]

/-- Witness for startStream_relay_failure: a fresh state and a network
that refuses the relay start leave no connection and no relay id. -/
theorem startStream_relay_failure_witness :
    st0.isConnecting = false ∧ st0.peerConnection = none ∧
    (startLivepeerStream env500.http st0.livepeerStreamId
        (liveStartBody none)).result =
      .error (.http "Livepeer stream start failed" 500
        "Internal Server Error" "boom") ∧
    startStream .livepeer env500 st0 none none =
      ⟨{ st0 with
          currentStream := none
          peerConnection := none
          dataChannel := none
          livepeerStreamIdRef := none
          livepeerStreamId := none
          isConnecting := false
          isStreaming := false },
        (startLivepeerStream env500.http st0.livepeerStreamId
          (liveStartBody none)).requests,
        true, true⟩ :=
  ⟨rfl, rfl, rfl,
    startStream_relay_failure env500 st0 none none rfl rfl
      (.http "Livepeer stream start failed" 500 "Internal Server Error" "boom")
      rfl⟩

/-- Helper: the shape of every forwardLivepeerRequest outcome. -/
theorem forwardLivepeerRequest_parts (H : Http) (sid : Option String)
    (streamId route : String) (payload : Json) :
    (forwardLivepeerRequest H sid streamId route payload).requests =
      [⟨relayUpdatePath streamId, "POST", "application/json",
        some (.obj [("route", .str route), ("request", payload)])⟩] ∧
    (forwardLivepeerRequest H sid streamId route payload).streamIdAfter = sid := by
  unfold forwardLivepeerRequest
  dsimp only
  refine ⟨?_, ?_⟩ <;> (split <;> (try split) <;> (try split) <;> rfl)

/-- Helper: result of forwardLivepeerRequest in each response case. -/
theorem forwardLivepeerRequest_result (H : Http) (sid : Option String)
    (streamId route : String) (payload : Json)
    (req : Request)
    (hreq : req = ⟨relayUpdatePath streamId, "POST", "application/json",
      some (.obj [("route", .str route), ("request", payload)])⟩) :
    ((H.send req).ok = false →
      (forwardLivepeerRequest H sid streamId route payload).result =
        .error (.http "Livepeer update failed" (H.send req).status
          (H.send req).statusText (H.send req).bodyText)) ∧
    ((H.send req).ok = true → (H.send req).bodyText.isEmpty = true →
      (forwardLivepeerRequest H sid streamId route payload).result =
        .ok .null) ∧
    ((H.send req).ok = true → (H.send req).bodyText.isEmpty = false →
      ∀ j, H.parse (H.send req).bodyText = some j →
        (forwardLivepeerRequest H sid streamId route payload).result = .ok j) ∧
    ((H.send req).ok = true → (H.send req).bodyText.isEmpty = false →
      H.parse (H.send req).bodyText = none →
      (forwardLivepeerRequest H sid streamId route payload).result =
        .ok (.str (H.send req).bodyText)) := by
  subst hreq
  refine ⟨?_, ?_, ?_, ?_⟩
  · intro h1
    simp [forwardLivepeerRequest, h1]
  · intro h1 h2
    simp [forwardLivepeerRequest, h1, h2]
  · intro h1 h2 j h3
    simp [forwardLivepeerRequest, h1, h2, h3]
  · intro h1 h2 h3
    simp [forwardLivepeerRequest, h1, h2, h3]

/-- Counterexample to C1 as stated: with the relay stream id set to the
empty string (a set, non-null id), an indirection-eligible call is NOT
forwarded: it issues its direct backend request, whose URL is not the
relay per-stream update path for that id. -/
theorem livepeerRoute_empty_id_hits_backend :
    (sendWebRTCOffer exHttp (some "") Json.null).requests =
      [⟨"/api/v1/webrtc/offer", "POST", "application/json", some Json.null⟩] ∧
    "/api/v1/webrtc/offer" ≠ relayUpdatePath "" := by
  refine ⟨rfl, ?_⟩
  decide

/-- C1 (amended): for every relay stream id that is set and non-empty,
each indirection-eligible call is exactly the relay forward of its route
and original body; and the forward primitive issues exactly one POST to
the relay per-stream update path carrying the envelope with fields route
and request, does not touch the shared id, and returns the relay
response unchanged: parsed JSON when the body parses, the raw body text
otherwise, and null for an empty body; a non-2xx relay response throws. -/
theorem indirection_forwards (H : Http) (id : String) (hid : id ≠ "") :
    (∀ data, sendWebRTCOffer H (some id) data =
      forwardLivepeerRequest H (some id) id "/api/v1/webrtc/offer" data) ∧
    (∀ data, loadPipeline H (some id) data =
      forwardLivepeerRequest H (some id) id "/api/v1/pipeline/load" data) ∧
    (getPipelineStatus H (some id) =
      forwardLivepeerRequest H (some id) id "/api/v1/pipeline/status" .null) ∧
    (∀ pid, checkModelStatus H (some id) pid =
      forwardLivepeerRequest H (some id) id
        ("/api/v1/models/status?pipeline_id=" ++ pid) .null) ∧
    (∀ pid, downloadPipelineModels H (some id) pid =
      forwardLivepeerRequest H (some id) id "/api/v1/models/download"
        (.obj [("pipeline_id", .str pid)])) ∧
    (∀ data, updatePipelineParameters H (some id) data =
      forwardLivepeerRequest H (some id) id "/api/v1/pipeline/update" data) ∧
    (getHardwareInfo H (some id) =
      forwardLivepeerRequest H (some id) id "/api/v1/hardware/info" .null) ∧
    (∀ (sid : Option String) (streamId route : String) (payload : Json)
      (req : Request),
      req = ⟨"/ai/stream/" ++ encodeURIComponent streamId ++ "/update",
        "POST", "application/json",
        some (.obj [("route", .str route), ("request", payload)])⟩ →
      (forwardLivepeerRequest H sid streamId route payload).requests = [req] ∧
      (forwardLivepeerRequest H sid streamId route payload).streamIdAfter = sid ∧
      ((H.send req).ok = true → (H.send req).bodyText.isEmpty = true →
        (forwardLivepeerRequest H sid streamId route payload).result =
          .ok .null) ∧
      ((H.send req).ok = true → (H.send req).bodyText.isEmpty = false →
        ∀ j, H.parse (H.send req).bodyText = some j →
          (forwardLivepeerRequest H sid streamId route payload).result = .ok j) ∧
      ((H.send req).ok = true → (H.send req).bodyText.isEmpty = false →
        H.parse (H.send req).bodyText = none →
        (forwardLivepeerRequest H sid streamId route payload).result =
          .ok (.str (H.send req).bodyText)) ∧
      ((H.send req).ok = false →
        (forwardLivepeerRequest H sid streamId route payload).result =
          .error (.http "Livepeer update failed" (H.send req).status
            (H.send req).statusText (H.send req).bodyText))) := by
  have hemp : id.isEmpty = false := by
    rw [← Bool.not_eq_true]
    intro h
    exact hid ((String.isEmpty_iff id).mp h)
  refine ⟨?_, ?_, ?_, ?_, ?_, ?_, ?_, ?_⟩
  · intro data; simp [sendWebRTCOffer, withLivepeerRoute, hemp]
  · intro data; simp [loadPipeline, withLivepeerRoute, hemp]
  · simp [getPipelineStatus, withLivepeerRoute, hemp]
  · intro pid; simp [checkModelStatus, withLivepeerRoute, hemp]
  · intro pid; simp [downloadPipelineModels, withLivepeerRoute, hemp]
  · intro data; simp [updatePipelineParameters, withLivepeerRoute, hemp]
  · simp [getHardwareInfo, withLivepeerRoute, hemp]
  · intro sid streamId route payload req hreq
    have hp := forwardLivepeerRequest_parts H sid streamId route payload
    have hr := forwardLivepeerRequest_result H sid streamId route payload req
      (by rw [hreq]; rfl)
    refine ⟨?_, hp.2, hr.2.1, hr.2.2.1, hr.2.2.2, hr.1⟩
    rw [hp.1, hreq]
    rfl

/-- Witness for indirection_forwards at a concrete non-empty id. -/
theorem indirection_forwards_witness :
    ("abc" : String) ≠ "" ∧
    sendWebRTCOffer exHttp (some "abc") Json.null =
      forwardLivepeerRequest exHttp (some "abc") "abc" "/api/v1/webrtc/offer"
        Json.null :=
  ⟨by decide, (indirection_forwards exHttp "abc" (by decide)).1 Json.null⟩

/-- Helper: request list and state of every startLivepeerStream call. -/
theorem startLivepeerStream_parts (H : Http) (sid : Option String)
    (data : Json) :
    (startLivepeerStream H sid data).requests =
      [⟨"/ai/stream/start", "POST", "application/json", some data⟩] ∧
    (startLivepeerStream H sid data).streamIdAfter = sid := by
  unfold startLivepeerStream
  dsimp only
  refine ⟨?_, ?_⟩ <;>
    (split <;> (try split) <;> (try split) <;> (try split) <;> rfl)

/-- Helper: a successful startLivepeerStream result implies a 2xx
response, a parsed body, and truthy whep_url and stream_id fields. -/
theorem startLivepeerStream_ok_inversion (H : Http) (sid : Option String)
    (data : Json) (j : Json)
    (h : (startLivepeerStream H sid data).result = .ok j) :
    (H.send ⟨"/ai/stream/start", "POST", "application/json", some data⟩).ok = true ∧
    H.parse (H.send ⟨"/ai/stream/start", "POST", "application/json",
      some data⟩).bodyText = some j ∧
    truthyField j "whep_url" = true ∧ truthyField j "stream_id" = true := by
  by_cases h1 : (H.send ⟨"/ai/stream/start", "POST", "application/json",
      some data⟩).ok = true
  · cases hp : H.parse (H.send ⟨"/ai/stream/start", "POST", "application/json",
        some data⟩).bodyText with
    | none => simp [startLivepeerStream, h1, hp] at h
    | some result =>
        by_cases h2 : truthyField result "whep_url" = true
        · by_cases h3 : truthyField result "stream_id" = true
          · have hj : result = j := by
              simpa [startLivepeerStream, h1, hp, h2, h3] using h
            subst hj
            exact ⟨h1, rfl, h2, h3⟩
          · simp [startLivepeerStream, h1, hp, h2, h3] at h
        · simp [startLivepeerStream, h1, hp, h2] at h
  · simp [startLivepeerStream, h1] at h

/-- Helper: a parsed start response with a falsy whep_url or stream_id
field makes startLivepeerStream throw. -/
theorem startLivepeerStream_missing_error (H : Http) (sid : Option String)
    (data : Json) (j : Json)
    (hp : H.parse (H.send ⟨"/ai/stream/start", "POST", "application/json",
      some data⟩).bodyText = some j)
    (hmiss : truthyField j "whep_url" = false ∨
      truthyField j "stream_id" = false) :
    ∃ e, (startLivepeerStream H sid data).result = .error e := by
  by_cases h1 : (H.send ⟨"/ai/stream/start", "POST", "application/json",
      some data⟩).ok = true
  · rcases hmiss with h | h
    · exact ⟨.missing "Livepeer stream start response missing whep_url",
        by simp [startLivepeerStream, h1, hp, h]⟩
    · by_cases h2 : truthyField j "whep_url" = true
      · exact ⟨.missing "Livepeer stream start response missing stream_id",
          by simp [startLivepeerStream, h1, hp, h2, h]⟩
      · exact ⟨.missing "Livepeer stream start response missing whep_url",
          by simp [startLivepeerStream, h1, hp, h2]⟩
  · exact ⟨.http "Livepeer stream start failed"
      (H.send ⟨"/ai/stream/start", "POST", "application/json", some data⟩).status
      (H.send ⟨"/ai/stream/start", "POST", "application/json", some data⟩).statusText
      (H.send ⟨"/ai/stream/start", "POST", "application/json", some data⟩).bodyText,
      by simp [startLivepeerStream, h1]⟩

/-- C2: startLivepeerStream never writes the shared relay stream id,
issues exactly one POST to the stream-start endpoint, resolves
successfully only when the 2xx response body parses with truthy whep_url
and stream_id fields, and throws for every parsed response in which
either field is missing or falsy. -/
theorem startLivepeerStream_validates (H : Http) (sid : Option String)
    (data : Json) :
    (startLivepeerStream H sid data).streamIdAfter = sid ∧
    (startLivepeerStream H sid data).requests =
      [⟨"/ai/stream/start", "POST", "application/json", some data⟩] ∧
    (∀ j, (startLivepeerStream H sid data).result = .ok j →
      (H.send ⟨"/ai/stream/start", "POST", "application/json",
        some data⟩).ok = true ∧
      H.parse (H.send ⟨"/ai/stream/start", "POST", "application/json",
        some data⟩).bodyText = some j ∧
      truthyField j "whep_url" = true ∧ truthyField j "stream_id" = true) ∧
    (∀ j, H.parse (H.send ⟨"/ai/stream/start", "POST", "application/json",
        some data⟩).bodyText = some j →
      (truthyField j "whep_url" = false ∨ truthyField j "stream_id" = false) →
      ∃ e, (startLivepeerStream H sid data).result = .error e) := by
  refine ⟨(startLivepeerStream_parts H sid data).2,
    (startLivepeerStream_parts H sid data).1, ?_, ?_⟩
  · exact fun j h => startLivepeerStream_ok_inversion H sid data j h
  · exact fun j hp hm => startLivepeerStream_missing_error H sid data j hp hm

/-- Witness for startLivepeerStream_validates: a 2xx response lacking
stream_id makes the call throw, and the shared id stays untouched. -/
theorem startLivepeerStream_validates_witness :
    exHttpNoSid.parse (exHttpNoSid.send ⟨"/ai/stream/start", "POST",
      "application/json", some Json.null⟩).bodyText =
      some (.obj [("whep_url", .str "u")]) ∧
    truthyField (.obj [("whep_url", .str "u")]) "stream_id" = false ∧
    (∃ e, (startLivepeerStream exHttpNoSid none Json.null).result = .error e) ∧
    (startLivepeerStream exHttpNoSid none Json.null).streamIdAfter = none := by
  refine ⟨rfl, rfl, ?_, ?_⟩
  · exact (startLivepeerStream_validates exHttpNoSid none Json.null).2.2.2
      (.obj [("whep_url", .str "u")]) rfl (Or.inr rfl)
  · exact (startLivepeerStream_validates exHttpNoSid none Json.null).1

/-- Helper: every direct backend fetcher meets the HTTP call contract. -/
theorem directJsonFetch_contract (H : Http) (sid : Option String)
    (ctx : String) (req : Request) :
    httpCallContract H ctx req (directJsonFetch H sid ctx req) := by
  refine ⟨?_, ?_, ?_⟩
  · unfold directJsonFetch
    dsimp only
    split <;> (try split) <;> rfl
  · intro h1
    simp [directJsonFetch, h1]
  · intro h1 j hp
    simp [directJsonFetch, h1, hp]

/-- C7: every API client call issues exactly its fixed request and, on a
non-2xx response, fails with the HTTP error carrying the numeric status,
the status text and the response body text verbatim; on success the
direct calls return the parsed JSON body, startLivepeerStream returns
only parsed JSON bodies, and the relay-forward primitive returns parsed
JSON, raw text for an unparsable body, and null for an empty body. -/
theorem api_error_contract (H : Http) :
    (∀ data, httpCallContract H "WebRTC offer failed"
      ⟨"/api/v1/webrtc/offer", "POST", "application/json", some data⟩
      (sendWebRTCOffer H none data)) ∧
    (∀ data, httpCallContract H "Pipeline load failed"
      ⟨"/api/v1/pipeline/load", "POST", "application/json", some data⟩
      (loadPipeline H none data)) ∧
    httpCallContract H "Pipeline status failed"
      ⟨"/api/v1/pipeline/status", "GET", "application/json", none⟩
      (getPipelineStatus H none) ∧
    (∀ pid, httpCallContract H "Model status check failed"
      ⟨"/api/v1/models/status?pipeline_id=" ++ pid, "GET",
        "application/json", none⟩
      (checkModelStatus H none pid)) ∧
    (∀ pid, httpCallContract H "Model download failed"
      ⟨"/api/v1/models/download", "POST", "application/json",
        some (.obj [("pipeline_id", .str pid)])⟩
      (downloadPipelineModels H none pid)) ∧
    (∀ data, httpCallContract H "Pipeline update failed"
      ⟨"/api/v1/pipeline/update", "POST", "application/json", some data⟩
      (updatePipelineParameters H none data)) ∧
    httpCallContract H "Hardware info failed"
      ⟨"/api/v1/hardware/info", "GET", "application/json", none⟩
      (getHardwareInfo H none) ∧
    (∀ sid data,
      (startLivepeerStream H sid data).requests =
        [⟨"/ai/stream/start", "POST", "application/json", some data⟩] ∧
      ((H.send ⟨"/ai/stream/start", "POST", "application/json",
          some data⟩).ok = false →
        (startLivepeerStream H sid data).result =
          .error (.http "Livepeer stream start failed"
            (H.send ⟨"/ai/stream/start", "POST", "application/json",
              some data⟩).status
            (H.send ⟨"/ai/stream/start", "POST", "application/json",
              some data⟩).statusText
            (H.send ⟨"/ai/stream/start", "POST", "application/json",
              some data⟩).bodyText)) ∧
      (∀ j, (startLivepeerStream H sid data).result = .ok j →
        H.parse (H.send ⟨"/ai/stream/start", "POST", "application/json",
          some data⟩).bodyText = some j)) ∧
    (∀ (sid : Option String) (streamId route : String) (payload : Json)
      (req : Request),
      req = ⟨relayUpdatePath streamId, "POST", "application/json",
        some (.obj [("route", .str route), ("request", payload)])⟩ →
      (forwardLivepeerRequest H sid streamId route payload).requests = [req] ∧
      ((H.send req).ok = false →
        (forwardLivepeerRequest H sid streamId route payload).result =
          .error (.http "Livepeer update failed" (H.send req).status
            (H.send req).statusText (H.send req).bodyText)) ∧
      ((H.send req).ok = true → (H.send req).bodyText.isEmpty = false →
        ∀ j, H.parse (H.send req).bodyText = some j →
          (forwardLivepeerRequest H sid streamId route payload).result =
            .ok j) ∧
      ((H.send req).ok = true → (H.send req).bodyText.isEmpty = false →
        H.parse (H.send req).bodyText = none →
        (forwardLivepeerRequest H sid streamId route payload).result =
          .ok (.str (H.send req).bodyText)) ∧
      ((H.send req).ok = true → (H.send req).bodyText.isEmpty = true →
        (forwardLivepeerRequest H sid streamId route payload).result =
          .ok .null)) := by
  refine ⟨?_, ?_, ?_, ?_, ?_, ?_, ?_, ?_, ?_⟩
  · exact fun data => directJsonFetch_contract H none "WebRTC offer failed" _
  · exact fun data => directJsonFetch_contract H none "Pipeline load failed" _
  · exact directJsonFetch_contract H none "Pipeline status failed" _
  · exact fun pid => directJsonFetch_contract H none "Model status check failed" _
  · exact fun pid => directJsonFetch_contract H none "Model download failed" _
  · exact fun data => directJsonFetch_contract H none "Pipeline update failed" _
  · exact directJsonFetch_contract H none "Hardware info failed" _
  · intro sid data
    refine ⟨(startLivepeerStream_parts H sid data).1, ?_, ?_⟩
    · intro h1
      have h1f : ¬(H.send ⟨"/ai/stream/start", "POST", "application/json",
          some data⟩).ok = true := by simp [h1]
      simp [startLivepeerStream, h1f]
    · exact fun j h => (startLivepeerStream_ok_inversion H sid data j h).2.1
  · intro sid streamId route payload req hreq
    have hp := forwardLivepeerRequest_parts H sid streamId route payload
    have hr := forwardLivepeerRequest_result H sid streamId route payload req hreq
    refine ⟨?_, hr.1, hr.2.2.1, hr.2.2.2, hr.2.1⟩
    rw [hp.1, hreq]

/-- Witness for api_error_contract: a network answering 500 makes a
direct call fail with the verbatim status, status text and body. -/
theorem api_error_contract_witness :
    (exHttp500.send ⟨"/api/v1/webrtc/offer", "POST", "application/json",
      some Json.null⟩).ok = false ∧
    (sendWebRTCOffer exHttp500 none Json.null).result =
      .error (.http "WebRTC offer failed" 500 "Internal Server Error"
        "boom") := by
  refine ⟨rfl, ?_⟩
  exact ((api_error_contract exHttp500).1 Json.null).2.1 rfl

/-- Helper: hexadecimal digits are never a slash, question mark or hash. -/
theorem encodeHexDigit_safe (n : Nat) :
    encodeHexDigit n ≠ '/' ∧ encodeHexDigit n ≠ '?' ∧ encodeHexDigit n ≠ '#' := by
  rcases Nat.lt_or_ge n 15 with h | h
  · interval_cases n <;> decide
  · have hF : encodeHexDigit n = 'F' := by
      unfold encodeHexDigit
      repeat rw [if_neg (by omega)]
    rw [hF]
    decide

/-- Helper: no character produced by the per-character encoding is a
slash, question mark or hash. -/
theorem encodeChar_safe (c : Char) (d : Char) (hd : d ∈ encodeChar c) :
    d ≠ '/' ∧ d ≠ '?' ∧ d ≠ '#' := by
  unfold encodeChar at hd
  by_cases h : isUnreservedChar c = true
  · rw [if_pos h] at hd
    simp only [List.mem_singleton] at hd
    subst hd
    refine ⟨?_, ?_, ?_⟩ <;> intro he <;> rw [he] at h <;>
      exact absurd h (by decide)
  · rw [if_neg h] at hd
    rcases List.mem_flatMap.mp hd with ⟨b, _, hdb⟩
    simp only [percentEncodeByte, List.mem_cons, List.mem_singleton,
      List.not_mem_nil, or_false] at hdb
    rcases hdb with h1 | h1 | h1
    · subst h1; exact ⟨by decide, by decide, by decide⟩
    · subst h1; exact encodeHexDigit_safe _
    · subst h1; exact encodeHexDigit_safe _

/-- Helper: encodeURIComponent never emits a slash, question mark or
hash. -/
theorem encodeURIComponent_safe (s : String) :
    ∀ c ∈ (encodeURIComponent s).data, c ≠ '/' ∧ c ≠ '?' ∧ c ≠ '#' := by
  intro c hc
  have hdata : (encodeURIComponent s).data = s.data.flatMap encodeChar := rfl
  rw [hdata] at hc
  rcases List.mem_flatMap.mp hc with ⟨a, _, hca⟩
  exact encodeChar_safe a c hca

/-- C10: forwardLivepeerRequest targets the path obtained by splicing
the percent-encoded stream id between the fixed leading and trailing path parts, and
the encoded id contains no slash, question mark or hash, so a reserved
character in the id cannot change the targeted path segment. -/
theorem forward_encodes_stream_id (H : Http) (sid : Option String)
    (streamId route : String) (payload : Json) :
    (forwardLivepeerRequest H sid streamId route payload).requests =
      [⟨"/ai/stream/" ++ encodeURIComponent streamId ++ "/update", "POST",
        "application/json",
        some (.obj [("route", .str route), ("request", payload)])⟩] ∧
    (∀ c ∈ (encodeURIComponent streamId).data,
      c ≠ '/' ∧ c ≠ '?' ∧ c ≠ '#') :=
  ⟨(forwardLivepeerRequest_parts H sid streamId route payload).1,
    encodeURIComponent_safe streamId⟩

/-- Witness for forward_encodes_stream_id on a concrete id with a slash. -/
theorem forward_encodes_stream_id_witness :
    ('a' ∈ (encodeURIComponent "a/b").data) ∧
    ('a' ≠ '/' ∧ 'a' ≠ '?' ∧ 'a' ≠ '#') := by
  refine ⟨by decide, ?_⟩
  exact (forward_encodes_stream_id exHttp none "a/b" "r" Json.null).2 'a'
    (by decide)
